import Mathlib

/-!
Verification development for the glaucoma image-management tool
(`config.py`, `utils.py`, `models/imagen.py`, `models/gestor.py`).

Shallow embedding conventions:

* Filesystem paths are modeled as `FPath := List String`: the list of path
  components of the path in absolute canonical form, relative to the working
  root (`Path.cwd()` of `config.py`), with no symlinks or `..` segments, so
  `Path.resolve()` is the identity on this representation.  The empty list
  `[]` represents both the empty path string `""` (which `pathlib` turns
  into the dot path) and the working root itself.
* The filesystem is a pair of sets (lists) of existing regular files and
  existing directories, plus the contents of `metadata.csv` tracked
  separately: `csv = none` models an absent file, `csv = some filas` models
  a file holding exactly one header line followed by the given data rows
  (`utils.escribir_csv` always writes exactly one header).
* `datetime.date` is modeled by `Fecha` (year/month/day as naturals); the
  validity invariant that the `datetime.date` constructor enforces is the
  predicate `FechaValida`.  `date.isoformat` and
  `datetime.strptime(_, "%Y-%m-%d").date()` are modeled concretely as
  decimal printing/parsing (`isoformat`, `strptimeFecha`).
* Python `float` and `int` metadata values are modeled by type parameters
  `F` and `I` together with the builtin conversions `str` (`fstr`, `istr`)
  and `float`/`int` applied while loading (`fparse`, `iparse`).  The
  documented Python contracts (`str` of a number is a non-empty string and
  `float(str(x)) == x`, `int(str(n)) == n`) appear as explicit hypotheses
  of the theorems that need them.
* Exceptions that the code lets escape are modeled with `Option`; a raised
  and swallowed `OSError`/`IOError` is modeled as the no-change branch of
  the corresponding state transformer.  Filesystem errors that do not
  correspond to a structural condition (e.g. permissions) are modeled by an
  explicit oracle argument where the behavior of the code under them is claimed.
-/

set_option linter.unusedSectionVars false
set_option linter.unnecessarySeqFocus false

namespace Glaucoma

/-! ## Dates (`datetime.date`) -/

/-- Model of a `datetime.date` value: year, month, day. -/
structure Fecha where
  anio : Nat
  mes : Nat
  dia : Nat
deriving DecidableEq

/-- Leap-year rule used by `datetime.date`. -/
def esBisiesto (y : Nat) : Bool :=
  (y % 4 == 0 && y % 100 != 0) || y % 400 == 0

/-- Number of days of month `m` in year `y` (Gregorian calendar, as in
`datetime.date`). -/
def diasEnMes (y m : Nat) : Nat :=
  if m = 1 ∨ m = 3 ∨ m = 5 ∨ m = 7 ∨ m = 8 ∨ m = 10 ∨ m = 12 then 31
  else if m = 4 ∨ m = 6 ∨ m = 9 ∨ m = 11 then 30
  else if esBisiesto y then 29
  else 28

/-- The invariant every constructed `datetime.date` satisfies. -/
def FechaValida (d : Fecha) : Prop :=
  1 ≤ d.anio ∧ d.anio ≤ 9999 ∧ 1 ≤ d.mes ∧ d.mes ≤ 12 ∧
    1 ≤ d.dia ∧ d.dia ≤ diasEnMes d.anio d.mes

instance (d : Fecha) : Decidable (FechaValida d) := by
  unfold FechaValida; infer_instance

/-! ## Decimal printing and parsing of naturals -/

/-- Decimal digit characters of `n`, most significant first (empty for 0),
as produced by Python string formatting. -/
def digitos (n : Nat) : List Char :=
  (Nat.digits 10 n).reverse.map Nat.digitChar

/-- Zero-padded decimal of `n` to width `w` (Python `f"{n:0wd}"`,
for `n < 10 ^ w`). -/
def rellenar (w n : Nat) : List Char :=
  List.replicate (w - (digitos n).length) '0' ++ digitos n

/-- Value of a big-endian list of decimal digit characters. -/
def valorDigitos (l : List Char) : Nat :=
  l.foldl (fun a c => 10 * a + (c.toNat - 48)) 0

/-- Parse a digit group matched by the `strptime` regular expression:
all characters must be decimal digits, and the value is the usual
decimal reading. -/
def aNat (l : List Char) : Option Nat :=
  if l.all Char.isDigit then some (valorDigitos l) else none

/-- The format `%Y-%m-%d` splits its input at the literal dashes; this is the
dash-splitting of a character list. -/
def separar : List Char → List (List Char)
  | [] => [[]]
  | c :: cs =>
    if c = '-' then [] :: separar cs
    else
      match separar cs with
      | [] => [[c]]
      | h :: t => (c :: h) :: t

/-- ISO-8601 character sequence of a date: `YYYY-MM-DD`
(`date.isoformat`). -/
def isoCadena (d : Fecha) : List Char :=
  rellenar 4 d.anio ++ '-' :: (rellenar 2 d.mes ++ '-' :: rellenar 2 d.dia)

/-- Model of `date.isoformat()`. -/
def isoformat (d : Fecha) : String :=
  String.mk (isoCadena d)

/-- Model of `datetime.strptime(s, "%Y-%m-%d").date()`: `%Y` matches exactly
four digits, `%m` and `%d` one or two digits with values in range, and the
`date` constructor then enforces calendar validity; any failure raises
(modeled as `none`). -/
def strptimeFecha (s : String) : Option Fecha :=
  match separar s.data with
  | [ys, ms, ds] =>
    if ys.length = 4 ∧ 1 ≤ ms.length ∧ ms.length ≤ 2 ∧ 1 ≤ ds.length ∧ ds.length ≤ 2 then
      match aNat ys, aNat ms, aNat ds with
      | some y, some m, some d =>
        if 1 ≤ m ∧ m ≤ 12 ∧ 1 ≤ d ∧ d ≤ 31 ∧ 1 ≤ y ∧ d ≤ diasEnMes y m then
          some ⟨y, m, d⟩
        else none
      | _, _, _ => none
    else none
  | _ => none

/-! ### Round-trip lemmas for the decimal machinery -/

lemma digitChar_isDigit {d : Nat} (h : d < 10) : (Nat.digitChar d).isDigit = true := by
  interval_cases d <;> decide

lemma digitChar_toNat {d : Nat} (h : d < 10) : (Nat.digitChar d).toNat - 48 = d := by
  interval_cases d <;> decide

lemma digitos_isDigit {n : Nat} : ∀ c ∈ digitos n, c.isDigit = true := by
  intro c hc
  rcases List.mem_map.mp hc with ⟨d, hd, rfl⟩
  exact digitChar_isDigit (Nat.digits_lt_base (by norm_num) (List.mem_reverse.mp hd))

lemma rellenar_isDigit {w n : Nat} : ∀ c ∈ rellenar w n, c.isDigit = true := by
  intro c hc
  rcases List.mem_append.mp hc with h | h
  · rw [List.eq_of_mem_replicate h]; decide
  · exact digitos_isDigit c h

lemma digitos_length_le {n w : Nat} (h : n < 10 ^ w) : (digitos n).length ≤ w := by
  unfold digitos
  rw [List.length_map, List.length_reverse]
  rcases Nat.eq_zero_or_pos n with h0 | hp
  · subst h0; simp
  · rw [Nat.digits_len 10 n (by norm_num) hp.ne']
    have := (Nat.lt_pow_iff_log_lt (by norm_num : 1 < 10) hp.ne').mp h
    omega

lemma rellenar_length {w n : Nat} (h : n < 10 ^ w) : (rellenar w n).length = w := by
  unfold rellenar
  rw [List.length_append, List.length_replicate]
  have := digitos_length_le h
  omega

lemma foldl_digitos (L : List Nat) (hL : ∀ x ∈ L, x < 10) :
    ∀ A : Nat, (L.reverse.map Nat.digitChar).foldl (fun a c => 10 * a + (c.toNat - 48)) A =
      A * 10 ^ L.length + Nat.ofDigits 10 L := by
  induction L with
  | nil => intro A; simp
  | cons x T ih =>
    intro A
    have hx : x < 10 := hL x (List.mem_cons_self x T)
    have hT : ∀ y ∈ T, y < 10 := fun y hy => hL y (List.mem_cons_of_mem x hy)
    rw [List.reverse_cons, List.map_append, List.foldl_append, ih hT A]
    simp only [List.map_cons, List.map_nil, List.foldl_cons, List.foldl_nil,
      digitChar_toNat hx, Nat.ofDigits_cons, List.length_cons]
    ring

lemma valorDigitos_digitos (n : Nat) : valorDigitos (digitos n) = n := by
  unfold valorDigitos digitos
  rw [foldl_digitos (Nat.digits 10 n) (fun _ hd => Nat.digits_lt_base (by norm_num) hd) 0]
  simp [Nat.ofDigits_digits]

lemma valorDigitos_rellenar (w n : Nat) : valorDigitos (rellenar w n) = n := by
  unfold valorDigitos rellenar
  rw [List.foldl_append]
  have hzeros : ∀ k : Nat, (List.replicate k '0').foldl (fun a c => 10 * a + (c.toNat - 48)) 0 = 0 := by
    intro k
    induction k with
    | zero => rfl
    | succ m ih => simpa [List.replicate_succ] using ih
  rw [hzeros]
  exact valorDigitos_digitos n

lemma aNat_rellenar (w n : Nat) : aNat (rellenar w n) = some n := by
  unfold aNat
  rw [if_pos (List.all_eq_true.mpr (fun c hc => rellenar_isDigit c hc))]
  rw [valorDigitos_rellenar]

lemma separar_append {a : List Char} (ha : ∀ c ∈ a, c ≠ '-') (r : List Char) :
    separar (a ++ '-' :: r) = a :: separar r := by
  induction a with
  | nil => simp [separar]
  | cons c cs ih =>
    have hc : c ≠ '-' := ha c (List.mem_cons_self c cs)
    have hcs : ∀ x ∈ cs, x ≠ '-' := fun x hx => ha x (List.mem_cons_of_mem c hx)
    simp only [List.cons_append, separar, if_neg hc, List.append_eq, ih hcs]

lemma separar_sin_guion {a : List Char} (ha : ∀ c ∈ a, c ≠ '-') :
    separar a = [a] := by
  induction a with
  | nil => rfl
  | cons c cs ih =>
    have hc : c ≠ '-' := ha c (List.mem_cons_self c cs)
    have hcs : ∀ x ∈ cs, x ≠ '-' := fun x hx => ha x (List.mem_cons_of_mem c hx)
    simp only [separar, if_neg hc, ih hcs]

lemma isDigit_ne_guion {c : Char} (h : c.isDigit = true) : c ≠ '-' := by
  intro hc; subst hc; simp at h

lemma diasEnMes_le_31 (y m : Nat) : diasEnMes y m ≤ 31 := by
  unfold diasEnMes
  split_ifs <;> norm_num

/-- Parsing inverts printing on every valid date: the round-trip at the
heart of the CSV date column. -/
theorem strptime_isoformat {d : Fecha} (h : FechaValida d) :
    strptimeFecha (isoformat d) = some d := by
  obtain ⟨y, m, dd⟩ := d
  obtain ⟨h1, h2, h3, h4, h5, h6⟩ := h
  simp only at h1 h2 h3 h4 h5 h6
  have hanio : y < 10 ^ 4 := by omega
  have hmes : m < 10 ^ 2 := by omega
  have hdia : dd < 10 ^ 2 := by
    have := diasEnMes_le_31 y m
    omega
  have hsep : separar (isoCadena ⟨y, m, dd⟩) = [rellenar 4 y, rellenar 2 m, rellenar 2 dd] := by
    unfold isoCadena
    rw [separar_append (fun c hc => isDigit_ne_guion (rellenar_isDigit c hc)),
      separar_append (fun c hc => isDigit_ne_guion (rellenar_isDigit c hc)),
      separar_sin_guion (fun c hc => isDigit_ne_guion (rellenar_isDigit c hc))]
  unfold strptimeFecha isoformat
  simp only [hsep]
  rw [if_pos]
  · rw [aNat_rellenar, aNat_rellenar, aNat_rellenar]
    show (if 1 ≤ m ∧ m ≤ 12 ∧ 1 ≤ dd ∧ dd ≤ 31 ∧ 1 ≤ y ∧ dd ≤ diasEnMes y m then
        some (⟨y, m, dd⟩ : Fecha) else none) = some ⟨y, m, dd⟩
    rw [if_pos ⟨h3, h4, h5, le_trans h6 (diasEnMes_le_31 _ _), h1, h6⟩]
  · refine ⟨rellenar_length hanio, ?_, ?_, ?_, ?_⟩ <;> rw [rellenar_length (by omega)] <;> omega

/-! ## Paths and configuration (`config.py`) -/

/-- A filesystem path in absolute canonical form, as its list of components
relative to the working root; `[]` is the root (and also models the empty
path string, which `pathlib` reads as the dot path). -/
abbrev FPath := List String

/-- Constant `config.RUTA_DATA = <cwd>/metadata`. -/
def RUTA_DATA : FPath := ["metadata"]

/-- Constant `config.RUTA_DATASET = <cwd>/images/dataset`. -/
def RUTA_DATASET : FPath := ["images", "dataset"]

/-- Constant `config.CARPETAS_DATASET`. -/
def CARPETAS_DATASET : List String := ["Train", "Test", "Validation"]

/-- Model of `Path.name`: the last component (empty for the root/empty path). -/
def nombre (p : FPath) : String := p.getLast?.getD ""

/-- Join a path with one more name, as the `pathlib` join operator: an empty
segment is dropped. -/
def unirNombre (p : FPath) (n : String) : FPath :=
  if n = "" then p else p ++ [n]

/-- Component-wise containment test: the first path is an initial segment
of the second. -/
def esPrefijo : FPath → FPath → Bool
  | [], _ => true
  | _ :: _, [] => false
  | a :: as, b :: bs => a == b && esPrefijo as bs

/-- The call `Path.relative_to(RUTA_DATASET)` succeeds exactly when the resolved path
lies inside the managed dataset root. -/
def dentroDataset (p : FPath) : Prop := esPrefijo RUTA_DATASET p = true

instance (p : FPath) : Decidable (dentroDataset p) := by
  unfold dentroDataset; infer_instance

/-! ## The record entity (`models/imagen.py`)

`F` models Python `float` and `I` Python `int`; `fstr`/`istr` model the
builtin `str` on them and `fparse`/`iparse` the builtins `float`/`int`
applied to a string while loading (with `none` for a raised `ValueError`).
`fecha_adquisicion` is `Option Fecha`: `none` models a value that is not a
`datetime.date` (the constructor accepts anything; `validar_metadata`
checks `isinstance(_, date)`). -/

/-- The `Imagen` entity of `models/imagen.py`. -/
structure Imagen (F I : Type) where
  id_imagen : String
  ruta_archivo : FPath
  id_paciente : String
  fecha_adquisicion : Option Fecha
  diagnostico : String
  conjunto_datos : String
  coordenadas_fovea : Option (F × F)
  dimensiones : Option (I × I)
deriving DecidableEq

/-- One data row of `metadata.csv`, keyed by `config.CABECERAS_CSV`
(all cells are strings; the `ruta_archivo` cell keeps the path
representation, written and read back verbatim). -/
structure Fila where
  id_imagen : String
  ruta_archivo : FPath
  id_paciente : String
  fecha_adquisicion : String
  diagnostico : String
  conjunto_datos : String
  Fovea_X : String
  Fovea_Y : String
  Size_X : String
  Size_Y : String
deriving DecidableEq

variable {F I : Type} [DecidableEq F] [DecidableEq I]

/-- Model of `Imagen.validar_metadata`: the four text fields must be truthy
(non-empty), `fecha_adquisicion` must be a `date`, and `conjunto_datos`
must belong to the closed set. -/
def validar_metadata (img : Imagen F I) : Bool :=
  if img.id_imagen = "" ∨ img.ruta_archivo = [] ∨ img.id_paciente = "" ∨ img.diagnostico = "" then
    false
  else if img.fecha_adquisicion = none then
    false
  else if img.conjunto_datos ∉ ["Train", "Test", "Validation"] then
    false
  else
    true

/-- Model of `Imagen.a_diccionario`: serialize to a flat string row.  In Python the
`none` branch of the date cell would raise (`isoformat` on a non-date);
every caller serializes only validated records, so that branch is
unreachable and is given the arbitrary value `""`. -/
def a_diccionario (fstr : F → String) (istr : I → String) (img : Imagen F I) : Fila where
  id_imagen := img.id_imagen
  ruta_archivo := img.ruta_archivo
  id_paciente := img.id_paciente
  fecha_adquisicion :=
    match img.fecha_adquisicion with
    | some d => isoformat d
    | none => ""
  diagnostico := img.diagnostico
  conjunto_datos := img.conjunto_datos
  Fovea_X := match img.coordenadas_fovea with | some xy => fstr xy.1 | none => ""
  Fovea_Y := match img.coordenadas_fovea with | some xy => fstr xy.2 | none => ""
  Size_X := match img.dimensiones with | some wh => istr wh.1 | none => ""
  Size_Y := match img.dimensiones with | some wh => istr wh.2 | none => ""

/-- The per-row parse of `GestorImagenes.cargar_metadata_existente`:
`strptime` on the date cell, then the optional pairs are rebuilt when both
cells are truthy (non-empty).  Any raised `ValueError` aborts the load
(`none`). -/
def fila_a_imagen (fparse : String → Option F) (iparse : String → Option I)
    (fila : Fila) : Option (Imagen F I) :=
  match strptimeFecha fila.fecha_adquisicion with
  | none => none
  | some fecha =>
    let fovea? : Option (Option (F × F)) :=
      if fila.Fovea_X ≠ "" ∧ fila.Fovea_Y ≠ "" then
        match fparse fila.Fovea_X, fparse fila.Fovea_Y with
        | some x, some y => some (some (x, y))
        | _, _ => none
      else some none
    let dims? : Option (Option (I × I)) :=
      if fila.Size_X ≠ "" ∧ fila.Size_Y ≠ "" then
        match iparse fila.Size_X, iparse fila.Size_Y with
        | some a, some b => some (some (a, b))
        | _, _ => none
      else some none
    match fovea?, dims? with
    | some fovea, some dims =>
      some ⟨fila.id_imagen, fila.ruta_archivo, fila.id_paciente, some fecha,
        fila.diagnostico, fila.conjunto_datos, fovea, dims⟩
    | _, _ => none

/-! ## System state and utilities (`utils.py`) -/

/-- The state a run of the program manipulates: the set of existing regular
files, the set of existing directories, the contents of `metadata.csv`
(`none` = absent, `some filas` = header plus the given rows), and the
in-memory list `__lista_imagenes` of the manager. -/
structure EstadoSistema (F I : Type) where
  files : List FPath
  dirs : List FPath
  csv : Option (List Fila)
  imagenes : List (Imagen F I)
deriving DecidableEq

/-- Existence test (`Path.exists`): a file or a directory at that path. -/
abbrev existe (s : EstadoSistema F I) (p : FPath) : Prop :=
  p ∈ s.files ∨ p ∈ s.dirs

/-- Model of `utils.copiar_archivo` (`shutil.copy`, errors swallowed): the copy
succeeds — creating or overwriting the destination file — when the source
is an existing regular file, the parent directory of the destination exists and
the destination is not itself a directory; otherwise the raised error is
printed and nothing changes. -/
def copiar_archivo (s : EstadoSistema F I) (o d : FPath) : EstadoSistema F I :=
  if o ∈ s.files ∧ d.dropLast ∈ s.dirs ∧ d ∉ s.dirs then
    { s with files := s.files.insert d }
  else s

/-- Model of `utils.verificar_duplicados_dataset`: resolve both paths; when both lie
inside `config.RUTA_DATASET`, differ, and the origin still exists, unlink
the origin (unlinking only removes a regular file; on a directory the
raised `OSError` is swallowed). -/
def verificar_duplicados_dataset (s : EstadoSistema F I) (o d : FPath) : EstadoSistema F I :=
  if dentroDataset o ∧ dentroDataset d ∧ o ≠ d ∧ existe s o then
    { s with files := s.files.filter (fun p => p ≠ o) }
  else s

/-- All non-empty ancestors of a path, innermost last: the directories
`Path.mkdir(parents=True, exist_ok=True)` ensures exist. -/
def prefijosNoVacios (p : FPath) : List FPath :=
  (List.range p.length).map (fun k => p.take (k + 1))

/-- One `mkdir(parents=True, exist_ok=True)` call. -/
def crear_directorio (dirs : List FPath) (p : FPath) : List FPath :=
  (prefijosNoVacios p).foldl (fun acc q => acc.insert q) dirs

/-- Model of `utils.gestionar_rutas`: create the base directory and every requested
subdirectory (errors swallowed; creation is modeled as always succeeding). -/
def gestionar_rutas (s : EstadoSistema F I) (base : FPath) (subs : List FPath) :
    EstadoSistema F I :=
  { s with dirs := subs.foldl crear_directorio (crear_directorio s.dirs base) }

/-! ## The record manager (`models/gestor.py`) -/

/-- Model of `GestorImagenes.inicializar_entorno`: ensure the directory layout
exists, then create `metadata.csv` with header-only content if absent. -/
def inicializar_entorno (s : EstadoSistema F I) : EstadoSistema F I :=
  let s1 := gestionar_rutas s RUTA_DATA (CARPETAS_DATASET.map (fun sub => RUTA_DATASET ++ [sub]))
  match s1.csv with
  | some _ => s1
  | none => { s1 with csv := some [] }

/-- Model of `GestorImagenes.__guardar_metadata_en_csv`: rewrite the whole tabular
file from the in-memory list. -/
def guardar_metadata_en_csv (fstr : F → String) (istr : I → String)
    (s : EstadoSistema F I) : EstadoSistema F I :=
  { s with csv := some (s.imagenes.map (a_diccionario fstr istr)) }

/-- Model of `GestorImagenes.__buscar_imagen_por_id`: first record with the id. -/
def buscar_imagen_por_id (s : EstadoSistema F I) (id_imagen : String) : Option (Imagen F I) :=
  s.imagenes.find? (fun img => img.id_imagen = id_imagen)

/-- Model of `GestorImagenes.cargar_metadata_existente`: parse every row of the
tabular file (an absent file reads as no rows) and append the records to
the in-memory list; a parse error aborts the whole load (`none`). -/
def cargar_metadata_existente (fparse : String → Option F) (iparse : String → Option I)
    (s : EstadoSistema F I) : Option (EstadoSistema F I) :=
  ((s.csv.getD []).mapM (fila_a_imagen fparse iparse)).map
    (fun cargadas => { s with imagenes := s.imagenes ++ cargadas })

/-- The metadata dictionary `registrar_nueva_imagen` receives: the keys the
GUI supplies.  `id_paciente`, `fecha_adquisicion` and `diagnostico` are
accessed with `[]` (required); the rest with `.get` (optional).  A non-date
`fecha_adquisicion` value is modeled as `none`. -/
structure Metadata (F I : Type) where
  id_paciente : String
  fecha_adquisicion : Option Fecha
  diagnostico : String
  conjunto_datos : Option String
  coordenadas_fovea : Option (F × F)
  dimensiones : Option (I × I)
deriving DecidableEq

/-- The `Imagen` object `registrar_nueva_imagen` constructs for a fresh id
and destination path. -/
def imagen_nueva (nuevo_id : String) (ruta_destino : FPath) (meta : Metadata F I)
    (conjunto : String) : Imagen F I :=
  ⟨nuevo_id, ruta_destino, meta.id_paciente, meta.fecha_adquisicion,
    meta.diagnostico, conjunto, meta.coordenadas_fovea, meta.dimensiones⟩

/-- Destination path `<RUTA_DATASET>/<conjunto>/<origin name>`. -/
def ruta_destino_de (o : FPath) (conjunto : String) : FPath :=
  unirNombre (RUTA_DATASET ++ [conjunto]) (nombre o)

/-- Model of `GestorImagenes.registrar_nueva_imagen`.  Here `nuevo_id` stands for the
freshly generated `img_<8-hex>` id (`__generar_id_unico`).  Returns the new
state and the Python return value (`some b` = the boolean `b`). -/
def registrar_nueva_imagen (fstr : F → String) (istr : I → String)
    (s : EstadoSistema F I) (ruta_origen : FPath) (meta : Metadata F I)
    (nuevo_id : String) : EstadoSistema F I × Option Bool :=
  if existe s ruta_origen then
    let conjunto := meta.conjunto_datos.getD "Train"
    let ruta_destino := ruta_destino_de ruta_origen conjunto
    let s1 := copiar_archivo s ruta_origen ruta_destino
    let nueva := imagen_nueva nuevo_id ruta_destino meta conjunto
    if validar_metadata nueva then
      let s2 := { s1 with imagenes := s1.imagenes ++ [nueva] }
      (guardar_metadata_en_csv fstr istr s2, some true)
    else
      (s1, some false)
  else (s, some false)

/-- The change-set dictionary `modificar_metadata_imagen` receives: each
field is `some v` when the key is present with value `v`.  Keys the entity
does not declare are ignored by the `hasattr` guard and are not modeled. -/
structure NuevosDatos (F I : Type) where
  ruta_archivo : Option FPath
  conjunto_datos : Option String
  id_paciente : Option String
  fecha_adquisicion : Option (Option Fecha)
  diagnostico : Option String
  coordenadas_fovea : Option (Option (F × F))
  dimensiones : Option (Option (I × I))
deriving DecidableEq

/-- The `setattr` loop of `modificar_metadata_imagen`: overwrite exactly
the fields present in the change-set. -/
def aplicar_nuevos (img : Imagen F I) (nd : NuevosDatos F I) : Imagen F I where
  id_imagen := img.id_imagen
  ruta_archivo := nd.ruta_archivo.getD img.ruta_archivo
  id_paciente := nd.id_paciente.getD img.id_paciente
  fecha_adquisicion := nd.fecha_adquisicion.getD img.fecha_adquisicion
  diagnostico := nd.diagnostico.getD img.diagnostico
  conjunto_datos := nd.conjunto_datos.getD img.conjunto_datos
  coordenadas_fovea := nd.coordenadas_fovea.getD img.coordenadas_fovea
  dimensiones := nd.dimensiones.getD img.dimensiones

/-- In-place mutation of the record `__buscar_imagen_por_id` found: replace
the first record carrying the id. -/
def actualizar_lista (l : List (Imagen F I)) (id_imagen : String) (nueva : Imagen F I) :
    List (Imagen F I) :=
  match l with
  | [] => []
  | x :: xs =>
    if x.id_imagen = id_imagen then nueva :: xs
    else x :: actualizar_lista xs id_imagen nueva

/-- Model of `GestorImagenes.modificar_metadata_imagen`.  The missing-`ruta_archivo`
key defaults to the empty string, which `pathlib` reads as the dot path —
the working root `[]`.  Return value: `some b` for a returned boolean,
`none` for the bare `return` (Python `None`) of the id-not-found branch. -/
def modificar_metadata_imagen (fstr : F → String) (istr : I → String)
    (s : EstadoSistema F I) (id_imagen : String) (nd : NuevosDatos F I) :
    EstadoSistema F I × Option Bool :=
  let ruta_origen := nd.ruta_archivo.getD []
  if existe s ruta_origen then
    let ruta_destino := ruta_destino_de ruta_origen (nd.conjunto_datos.getD "Train")
    let s1 :=
      if ruta_origen ≠ ruta_destino then
        verificar_duplicados_dataset (copiar_archivo s ruta_origen ruta_destino)
          ruta_origen ruta_destino
      else s
    let nd1 :=
      if ruta_origen ≠ ruta_destino then { nd with ruta_archivo := some ruta_destino }
      else nd
    match buscar_imagen_por_id s1 id_imagen with
    | none => (s1, none)
    | some imagen =>
      let s2 :=
        if existe s1 imagen.ruta_archivo ∧ imagen.ruta_archivo ≠ ruta_destino then
          verificar_duplicados_dataset s1 imagen.ruta_archivo ruta_destino
        else s1
      let s3 := { s2 with
        imagenes := actualizar_lista s2.imagenes id_imagen (aplicar_nuevos imagen nd1) }
      (guardar_metadata_en_csv fstr istr s3, some true)
  else (s, some false)

/-- Removal from the in-memory list (`list.remove` on the object
`__buscar_imagen_por_id` returned): drop the first record with the id. -/
def eliminar_de_lista (l : List (Imagen F I)) (id_imagen : String) : List (Imagen F I) :=
  match l with
  | [] => []
  | x :: xs => if x.id_imagen = id_imagen then xs else x :: eliminar_de_lista xs id_imagen

/-- Model of `GestorImagenes.eliminar_imagen_por_id`.  Here `falla_unlink` is the
environment oracle for a raised `OSError` during `Path.unlink` (the code
prints it and continues); the function returns `None` on every path, so
only the state is returned. -/
def eliminar_imagen_por_id (fstr : F → String) (istr : I → String)
    (s : EstadoSistema F I) (id_imagen : String) (falla_unlink : Bool) :
    EstadoSistema F I :=
  match buscar_imagen_por_id s id_imagen with
  | none => s
  | some imagen =>
    let s1 :=
      if falla_unlink then s
      else { s with files := s.files.filter (fun p => p ≠ imagen.ruta_archivo) }
    let s2 := { s1 with imagenes := eliminar_de_lista s1.imagenes id_imagen }
    guardar_metadata_en_csv fstr istr s2

/-- Model of `GestorImagenes.obtener_imagenes_como_objetos`: a copy of the list. -/
def obtener_imagenes_como_objetos (s : EstadoSistema F I) : List (Imagen F I) :=
  s.imagenes

/-! ## Preservation helper lemmas -/

lemma copiar_archivo_imagenes (s : EstadoSistema F I) (o d : FPath) :
    (copiar_archivo s o d).imagenes = s.imagenes := by
  unfold copiar_archivo; split <;> rfl

lemma copiar_archivo_csv (s : EstadoSistema F I) (o d : FPath) :
    (copiar_archivo s o d).csv = s.csv := by
  unfold copiar_archivo; split <;> rfl

lemma copiar_archivo_dirs (s : EstadoSistema F I) (o d : FPath) :
    (copiar_archivo s o d).dirs = s.dirs := by
  unfold copiar_archivo; split <;> rfl

lemma verificar_duplicados_imagenes (s : EstadoSistema F I) (o d : FPath) :
    (verificar_duplicados_dataset s o d).imagenes = s.imagenes := by
  unfold verificar_duplicados_dataset; split <;> rfl

lemma verificar_duplicados_csv (s : EstadoSistema F I) (o d : FPath) :
    (verificar_duplicados_dataset s o d).csv = s.csv := by
  unfold verificar_duplicados_dataset; split <;> rfl

lemma verificar_duplicados_dirs (s : EstadoSistema F I) (o d : FPath) :
    (verificar_duplicados_dataset s o d).dirs = s.dirs := by
  unfold verificar_duplicados_dataset; split <;> rfl

/-! ## Example values used by witnesses -/

/-- A concrete valid date. -/
def fechaEjemplo : Fecha := ⟨2024, 5, 17⟩

/-- A concrete valid record (`F = I = Unit`; the unit values stand for the
floats `10.5` and the ints `512`). -/
def imagenEjemplo : Imagen Unit Unit :=
  ⟨"img_0a1b2c3d", ["images", "dataset", "Train", "a.png"], "P1", some fechaEjemplo,
    "Glaucoma", "Train", some ((), ()), some ((), ())⟩

/-! ## Claims -/

/-- C8: `validar_metadata` returns `true` iff the id, file path, patient id
and diagnosis are non-empty, the acquisition date is a `date` value, and
the dataset split belongs to {Train, Test, Validation}. -/
theorem validar_metadata_iff (img : Imagen F I) :
    validar_metadata img = true ↔
      (img.id_imagen ≠ "" ∧ img.ruta_archivo ≠ [] ∧ img.id_paciente ≠ "" ∧
        img.diagnostico ≠ "" ∧ img.fecha_adquisicion.isSome = true ∧
        img.conjunto_datos ∈ (["Train", "Test", "Validation"] : List String)) := by
  unfold validar_metadata
  split_ifs with h1 h2 h3 <;>
    simp_all [Option.isSome_iff_ne_none] <;> tauto

/-- Witness for C8 at a concrete record. -/
theorem validar_metadata_iff_testigo : validar_metadata imagenEjemplo = true :=
  (validar_metadata_iff imagenEjemplo).mpr (by decide)

/-- C9: `a_diccionario` serializes the date as ISO-8601 `YYYY-MM-DD`, and
each optional-pair cell is the literal empty string when the pair is absent
and the `str` of the component when present. -/
theorem a_diccionario_celdas (fstr : F → String) (istr : I → String)
    (img : Imagen F I) (d : Fecha)
    (hd : img.fecha_adquisicion = some d) (hv : FechaValida d) :
    (a_diccionario fstr istr img).fecha_adquisicion = isoformat d ∧
    (∃ ys ms ds : List Char,
      (isoformat d).data = ys ++ '-' :: (ms ++ '-' :: ds) ∧
      ys.length = 4 ∧ ms.length = 2 ∧ ds.length = 2 ∧
      (∀ c ∈ ys, c.isDigit = true) ∧ (∀ c ∈ ms, c.isDigit = true) ∧
      (∀ c ∈ ds, c.isDigit = true)) ∧
    (img.coordenadas_fovea = none →
      (a_diccionario fstr istr img).Fovea_X = "" ∧
      (a_diccionario fstr istr img).Fovea_Y = "") ∧
    (∀ x y, img.coordenadas_fovea = some (x, y) →
      (a_diccionario fstr istr img).Fovea_X = fstr x ∧
      (a_diccionario fstr istr img).Fovea_Y = fstr y) ∧
    (img.dimensiones = none →
      (a_diccionario fstr istr img).Size_X = "" ∧
      (a_diccionario fstr istr img).Size_Y = "") ∧
    (∀ a b, img.dimensiones = some (a, b) →
      (a_diccionario fstr istr img).Size_X = istr a ∧
      (a_diccionario fstr istr img).Size_Y = istr b) := by
  obtain ⟨hv1, hv2, hv3, hv4, hv5, hv6⟩ := hv
  have hanio : d.anio < 10 ^ 4 := by omega
  have hmes : d.mes < 10 ^ 2 := by omega
  have hdia : d.dia < 10 ^ 2 := by
    have := diasEnMes_le_31 d.anio d.mes
    omega
  refine ⟨by simp [a_diccionario, hd], ?_, ?_, ?_, ?_, ?_⟩
  · exact ⟨rellenar 4 d.anio, rellenar 2 d.mes, rellenar 2 d.dia, rfl,
      rellenar_length hanio, rellenar_length hmes, rellenar_length hdia,
      fun c hc => rellenar_isDigit c hc, fun c hc => rellenar_isDigit c hc,
      fun c hc => rellenar_isDigit c hc⟩
  · intro hfov; simp [a_diccionario, hfov]
  · intro x y hfov; simp [a_diccionario, hfov]
  · intro hdim; simp [a_diccionario, hdim]
  · intro a b hdim; simp [a_diccionario, hdim]

/-- Witness for C9 at a concrete record. -/
theorem a_diccionario_celdas_testigo :
    (a_diccionario (fun _ : Unit => "10.5") (fun _ : Unit => "512")
        imagenEjemplo).fecha_adquisicion = isoformat fechaEjemplo ∧
    (∃ ys ms ds : List Char,
      (isoformat fechaEjemplo).data = ys ++ '-' :: (ms ++ '-' :: ds) ∧
      ys.length = 4 ∧ ms.length = 2 ∧ ds.length = 2 ∧
      (∀ c ∈ ys, c.isDigit = true) ∧ (∀ c ∈ ms, c.isDigit = true) ∧
      (∀ c ∈ ds, c.isDigit = true)) ∧
    (imagenEjemplo.coordenadas_fovea = none →
      (a_diccionario (fun _ : Unit => "10.5") (fun _ : Unit => "512")
        imagenEjemplo).Fovea_X = "" ∧
      (a_diccionario (fun _ : Unit => "10.5") (fun _ : Unit => "512")
        imagenEjemplo).Fovea_Y = "") ∧
    (∀ x y, imagenEjemplo.coordenadas_fovea = some (x, y) →
      (a_diccionario (fun _ : Unit => "10.5") (fun _ : Unit => "512")
        imagenEjemplo).Fovea_X = "10.5" ∧
      (a_diccionario (fun _ : Unit => "10.5") (fun _ : Unit => "512")
        imagenEjemplo).Fovea_Y = "10.5") ∧
    (imagenEjemplo.dimensiones = none →
      (a_diccionario (fun _ : Unit => "10.5") (fun _ : Unit => "512")
        imagenEjemplo).Size_X = "" ∧
      (a_diccionario (fun _ : Unit => "10.5") (fun _ : Unit => "512")
        imagenEjemplo).Size_Y = "") ∧
    (∀ a b, imagenEjemplo.dimensiones = some (a, b) →
      (a_diccionario (fun _ : Unit => "10.5") (fun _ : Unit => "512")
        imagenEjemplo).Size_X = "512" ∧
      (a_diccionario (fun _ : Unit => "10.5") (fun _ : Unit => "512")
        imagenEjemplo).Size_Y = "512") :=
  a_diccionario_celdas (fun _ : Unit => "10.5") (fun _ : Unit => "512")
    imagenEjemplo fechaEjemplo rfl (by decide)

/-- C2: serializing a valid record with `a_diccionario` and re-parsing the
row with the per-row logic of the loader reproduces the record exactly, given
the Python builtin contracts for `str`/`float`/`int`. -/
theorem ida_y_vuelta_registro (fstr : F → String) (fparse : String → Option F)
    (istr : I → String) (iparse : String → Option I) (img : Imagen F I) (d : Fecha)
    (hfrt : ∀ x, fparse (fstr x) = some x) (hfne : ∀ x, fstr x ≠ "")
    (hirt : ∀ n, iparse (istr n) = some n) (hine : ∀ n, istr n ≠ "")
    (hval : validar_metadata img = true)
    (hd : img.fecha_adquisicion = some d) (hvd : FechaValida d) :
    fila_a_imagen fparse iparse (a_diccionario fstr istr img) = some img := by
  obtain ⟨iid, ruta, pac, fec, diag, conj, fov, dim⟩ := img
  simp only [Imagen.fecha_adquisicion] at hd
  subst hd
  rcases fov with _ | ⟨x, y⟩ <;> rcases dim with _ | ⟨a, b⟩ <;>
    simp [fila_a_imagen, a_diccionario, strptime_isoformat hvd, hfrt, hfne, hirt, hine]

/-- Witness for C2 at a concrete valid record. -/
theorem ida_y_vuelta_registro_testigo :
    fila_a_imagen (fun _ => some ()) (fun _ => some ())
      (a_diccionario (fun _ : Unit => "10.5") (fun _ : Unit => "512") imagenEjemplo) =
      some imagenEjemplo :=
  by
  refine ida_y_vuelta_registro _ _ _ _ imagenEjemplo fechaEjemplo ?_ ?_ ?_ ?_ ?_ rfl ?_
  · intro x; rfl
  · intro x; decide
  · intro n; rfl
  · intro n; decide
  · decide
  · decide

/-- C3: `verificar_duplicados_dataset` deletes the previous path exactly
when both resolved paths lie inside the dataset root, they differ, and the
previous path is an existing file; if either path falls outside the dataset
root, the state is untouched. -/
theorem verificar_duplicados_borra_sii (s : EstadoSistema F I) (o d : FPath) :
    ((o ∈ s.files ∧ o ∉ (verificar_duplicados_dataset s o d).files) ↔
      (dentroDataset o ∧ dentroDataset d ∧ o ≠ d ∧ o ∈ s.files)) ∧
    ((¬ dentroDataset o ∨ ¬ dentroDataset d) → verificar_duplicados_dataset s o d = s) := by
  constructor
  · constructor
    · rintro ⟨hmem, hnot⟩
      unfold verificar_duplicados_dataset at hnot
      split_ifs at hnot with h
      · exact ⟨h.1, h.2.1, h.2.2.1, hmem⟩
      · exact absurd hmem hnot
    · rintro ⟨h1, h2, h3, h4⟩
      refine ⟨h4, ?_⟩
      unfold verificar_duplicados_dataset
      rw [if_pos ⟨h1, h2, h3, Or.inl h4⟩]
      simp [List.mem_filter]
  · intro h
    unfold verificar_duplicados_dataset
    rw [if_neg]
    tauto

/-- Witness for C3: a concrete deletion inside the dataset root. -/
theorem verificar_duplicados_borra_sii_testigo :
    ["images", "dataset", "Train", "a.png"] ∈
        (⟨[["images", "dataset", "Train", "a.png"]], [], none, []⟩ :
          EstadoSistema Unit Unit).files ∧
      ["images", "dataset", "Train", "a.png"] ∉
        (verificar_duplicados_dataset
          (⟨[["images", "dataset", "Train", "a.png"]], [], none, []⟩ :
            EstadoSistema Unit Unit)
          ["images", "dataset", "Train", "a.png"]
          ["images", "dataset", "Test", "a.png"]).files :=
  (verificar_duplicados_borra_sii
    (⟨[["images", "dataset", "Train", "a.png"]], [], none, []⟩ : EstadoSistema Unit Unit)
    ["images", "dataset", "Train", "a.png"]
    ["images", "dataset", "Test", "a.png"]).1.mpr (by decide)

/-! ## More helper lemmas -/

lemma a_diccionario_id (fstr : F → String) (istr : I → String) (img : Imagen F I) :
    (a_diccionario fstr istr img).id_imagen = img.id_imagen := rfl

lemma buscar_eq_de_imagenes {s t : EstadoSistema F I} (h : s.imagenes = t.imagenes)
    (id_imagen : String) :
    buscar_imagen_por_id s id_imagen = buscar_imagen_por_id t id_imagen := by
  unfold buscar_imagen_por_id
  rw [h]

lemma eliminar_de_lista_sin_id (l : List (Imagen F I)) (id_imagen : String)
    (hu : (l.filter (fun i => i.id_imagen = id_imagen)).length ≤ 1) :
    ∀ i ∈ eliminar_de_lista l id_imagen, i.id_imagen ≠ id_imagen := by
  induction l with
  | nil => intro i hi; simp [eliminar_de_lista] at hi
  | cons x xs ih =>
    intro i hi
    by_cases hx : x.id_imagen = id_imagen
    · simp only [eliminar_de_lista, if_pos hx] at hi
      have hlen : (xs.filter (fun i => i.id_imagen = id_imagen)).length = 0 := by
        rw [List.filter_cons_of_pos (by simpa using hx)] at hu
        simp only [List.length_cons] at hu
        omega
      have hnil := List.eq_nil_of_length_eq_zero hlen
      have := List.filter_eq_nil_iff.mp hnil i hi
      simpa using this
    · simp only [eliminar_de_lista, if_neg hx] at hi
      rcases List.mem_cons.mp hi with rfl | hi
      · exact hx
      · refine ih ?_ i hi
        rwa [List.filter_cons_of_neg (by simpa using hx)] at hu

/-- C4: after a successful delete, no in-memory record and no tabular row
carries the id, and — unless the unlink raised — the physical file at the
last known path of the record is gone; on an unlink error the record is removed
from metadata all the same. -/
theorem eliminar_completo (fstr : F → String) (istr : I → String)
    (s : EstadoSistema F I) (id_imagen : String) (img : Imagen F I) (falla_unlink : Bool)
    (hbuscar : buscar_imagen_por_id s id_imagen = some img)
    (hunico : (s.imagenes.filter (fun i => i.id_imagen = id_imagen)).length ≤ 1) :
    (falla_unlink = false →
      img.ruta_archivo ∉ (eliminar_imagen_por_id fstr istr s id_imagen falla_unlink).files) ∧
    (∀ i ∈ (eliminar_imagen_por_id fstr istr s id_imagen falla_unlink).imagenes,
      i.id_imagen ≠ id_imagen) ∧
    (∃ filas, (eliminar_imagen_por_id fstr istr s id_imagen falla_unlink).csv = some filas ∧
      ∀ f ∈ filas, f.id_imagen ≠ id_imagen) := by
  have hmem : ∀ i ∈ eliminar_de_lista s.imagenes id_imagen, i.id_imagen ≠ id_imagen :=
    eliminar_de_lista_sin_id s.imagenes id_imagen hunico
  refine ⟨?_, ?_, ?_⟩
  · intro hfalla
    simp only [eliminar_imagen_por_id, hbuscar, hfalla, guardar_metadata_en_csv,
      Bool.false_eq_true, if_neg]
    simp [List.mem_filter]
  · intro i hi
    simp only [eliminar_imagen_por_id, hbuscar, guardar_metadata_en_csv] at hi
    split at hi <;> exact hmem i hi
  · refine ⟨(eliminar_de_lista s.imagenes id_imagen).map (a_diccionario fstr istr), ?_, ?_⟩
    · simp only [eliminar_imagen_por_id, hbuscar, guardar_metadata_en_csv]
      split <;> rfl
    · intro f hf
      rcases List.mem_map.mp hf with ⟨i, hi, rfl⟩
      rw [a_diccionario_id]
      exact hmem i hi

/-- Witness for C4 at a concrete one-record state. -/
theorem eliminar_completo_testigo :
    (false = false →
      imagenEjemplo.ruta_archivo ∉
        (eliminar_imagen_por_id (fun _ : Unit => "10.5") (fun _ : Unit => "512")
          ⟨[["images", "dataset", "Train", "a.png"]], [[]], some [], [imagenEjemplo]⟩
          "img_0a1b2c3d" false).files) ∧
    (∀ i ∈ (eliminar_imagen_por_id (fun _ : Unit => "10.5") (fun _ : Unit => "512")
        ⟨[["images", "dataset", "Train", "a.png"]], [[]], some [], [imagenEjemplo]⟩
        "img_0a1b2c3d" false).imagenes,
      i.id_imagen ≠ "img_0a1b2c3d") ∧
    (∃ filas, (eliminar_imagen_por_id (fun _ : Unit => "10.5") (fun _ : Unit => "512")
        ⟨[["images", "dataset", "Train", "a.png"]], [[]], some [], [imagenEjemplo]⟩
        "img_0a1b2c3d" false).csv = some filas ∧
      ∀ f ∈ filas, f.id_imagen ≠ "img_0a1b2c3d") :=
  eliminar_completo (fun _ : Unit => "10.5") (fun _ : Unit => "512")
    ⟨[["images", "dataset", "Train", "a.png"]], [[]], some [], [imagenEjemplo]⟩
    "img_0a1b2c3d" imagenEjemplo false (by decide) (by decide)

/-- C1: with an existing source file and a record that fails validation,
`registrar_nueva_imagen` returns `False`, appends nothing, leaves the
tabular file as it was, and does not roll back the file copy. -/
theorem registrar_invalido_no_persiste (fstr : F → String) (istr : I → String)
    (s : EstadoSistema F I) (ruta_origen : FPath) (meta : Metadata F I) (nuevo_id : String)
    (hexiste : ruta_origen ∈ s.files)
    (hinvalida : validar_metadata (imagen_nueva nuevo_id
      (ruta_destino_de ruta_origen (meta.conjunto_datos.getD "Train")) meta
      (meta.conjunto_datos.getD "Train")) = false) :
    (registrar_nueva_imagen fstr istr s ruta_origen meta nuevo_id).2 = some false ∧
    (registrar_nueva_imagen fstr istr s ruta_origen meta nuevo_id).1.imagenes = s.imagenes ∧
    (registrar_nueva_imagen fstr istr s ruta_origen meta nuevo_id).1.csv = s.csv ∧
    (registrar_nueva_imagen fstr istr s ruta_origen meta nuevo_id).1.files =
      (copiar_archivo s ruta_origen
        (ruta_destino_de ruta_origen (meta.conjunto_datos.getD "Train"))).files := by
  have hred : registrar_nueva_imagen fstr istr s ruta_origen meta nuevo_id =
      (copiar_archivo s ruta_origen
        (ruta_destino_de ruta_origen (meta.conjunto_datos.getD "Train")), some false) := by
    unfold registrar_nueva_imagen
    rw [if_pos (Or.inl hexiste)]
    simp only [hinvalida, Bool.false_eq_true, if_neg, if_false]
  rw [hred]
  exact ⟨rfl, copiar_archivo_imagenes .., copiar_archivo_csv .., rfl⟩

/-- A concrete starting state: one loose file `a.png` at the working root,
the full managed directory layout, an empty tabular file, no records. -/
def estadoEjemplo : EstadoSistema Unit Unit :=
  ⟨[["a.png"]],
    [[], ["metadata"], ["images"], ["images", "dataset"], ["images", "dataset", "Train"],
      ["images", "dataset", "Test"], ["images", "dataset", "Validation"]],
    some [], []⟩

/-- A metadata dictionary whose record will fail validation: empty
`id_paciente`. -/
def metadataInvalida : Metadata Unit Unit :=
  ⟨"", some fechaEjemplo, "No tiene Glaucoma", none, none, none⟩

/-- Witness for C1 at a concrete invalid registration. -/
theorem registrar_invalido_no_persiste_testigo :
    (registrar_nueva_imagen (fun _ : Unit => "10.5") (fun _ : Unit => "512")
      estadoEjemplo ["a.png"] metadataInvalida "img_ffffffff").2 = some false ∧
    (registrar_nueva_imagen (fun _ : Unit => "10.5") (fun _ : Unit => "512")
      estadoEjemplo ["a.png"] metadataInvalida "img_ffffffff").1.imagenes =
      estadoEjemplo.imagenes ∧
    (registrar_nueva_imagen (fun _ : Unit => "10.5") (fun _ : Unit => "512")
      estadoEjemplo ["a.png"] metadataInvalida "img_ffffffff").1.csv = estadoEjemplo.csv ∧
    (registrar_nueva_imagen (fun _ : Unit => "10.5") (fun _ : Unit => "512")
      estadoEjemplo ["a.png"] metadataInvalida "img_ffffffff").1.files =
      (copiar_archivo estadoEjemplo ["a.png"]
        (ruta_destino_de ["a.png"] (metadataInvalida.conjunto_datos.getD "Train"))).files :=
  registrar_invalido_no_persiste (fun _ : Unit => "10.5") (fun _ : Unit => "512")
    estadoEjemplo ["a.png"] metadataInvalida "img_ffffffff" (by decide) (by decide)

/-! ## Directory-creation lemmas for `inicializar_entorno` -/

lemma mem_crear_directorio (dirs : List FPath) (p q : FPath) :
    q ∈ crear_directorio dirs p ↔ q ∈ dirs ∨ q ∈ prefijosNoVacios p := by
  unfold crear_directorio
  generalize prefijosNoVacios p = L
  induction L generalizing dirs with
  | nil => simp
  | cons x xs ih =>
    simp only [List.foldl_cons, ih, List.mem_insert_iff, List.mem_cons]
    tauto

lemma crear_directorio_fijo (dirs : List FPath) (p : FPath)
    (h : ∀ q ∈ prefijosNoVacios p, q ∈ dirs) : crear_directorio dirs p = dirs := by
  unfold crear_directorio
  revert h
  generalize prefijosNoVacios p = L
  induction L generalizing dirs with
  | nil => intro h; rfl
  | cons x xs ih =>
    intro h
    simp only [List.foldl_cons]
    rw [List.insert_of_mem (h x (List.mem_cons_self x xs))]
    exact ih dirs (fun q hq => h q (List.mem_cons_of_mem x hq))

lemma mem_foldl_crear (dirs : List FPath) (L : List FPath) (q : FPath) :
    q ∈ L.foldl crear_directorio dirs ↔ q ∈ dirs ∨ ∃ p ∈ L, q ∈ prefijosNoVacios p := by
  induction L generalizing dirs with
  | nil => simp
  | cons x xs ih =>
    simp only [List.foldl_cons, ih, mem_crear_directorio, List.mem_cons]
    constructor
    · rintro ((h | h) | ⟨p, hp, hq⟩)
      · exact Or.inl h
      · exact Or.inr ⟨x, Or.inl rfl, h⟩
      · exact Or.inr ⟨p, Or.inr hp, hq⟩
    · rintro (h | ⟨p, rfl | hp, hq⟩)
      · exact Or.inl (Or.inl h)
      · exact Or.inl (Or.inr hq)
      · exact Or.inr ⟨p, hp, hq⟩

lemma foldl_crear_fijo (dirs : List FPath) (L : List FPath)
    (h : ∀ p ∈ L, ∀ q ∈ prefijosNoVacios p, q ∈ dirs) :
    L.foldl crear_directorio dirs = dirs := by
  induction L with
  | nil => rfl
  | cons x xs ih =>
    simp only [List.foldl_cons]
    rw [crear_directorio_fijo dirs x (h x (List.mem_cons_self x xs)),
      ih (fun p hp => h p (List.mem_cons_of_mem x hp))]

/-- The directories `inicializar_entorno` guarantees: the metadata folder,
the dataset ancestors, and the three split folders. -/
def rutas_requeridas : List FPath :=
  [["metadata"], ["images"], ["images", "dataset"],
    ["images", "dataset", "Train"], ["images", "dataset", "Test"],
    ["images", "dataset", "Validation"]]

lemma inicializar_dirs_expr (s : EstadoSistema F I) :
    (inicializar_entorno s).dirs =
      (CARPETAS_DATASET.map (fun sub => RUTA_DATASET ++ [sub])).foldl crear_directorio
        (crear_directorio s.dirs RUTA_DATA) := by
  rcases hc : s.csv with _ | filas <;> simp [inicializar_entorno, gestionar_rutas, hc]

lemma inicializar_files (s : EstadoSistema F I) : (inicializar_entorno s).files = s.files := by
  rcases hc : s.csv with _ | filas <;> simp [inicializar_entorno, gestionar_rutas, hc]

lemma inicializar_imagenes (s : EstadoSistema F I) :
    (inicializar_entorno s).imagenes = s.imagenes := by
  rcases hc : s.csv with _ | filas <;> simp [inicializar_entorno, gestionar_rutas, hc]

lemma inicializar_csv (s : EstadoSistema F I) :
    (inicializar_entorno s).csv = some (s.csv.getD []) := by
  rcases hc : s.csv with _ | filas <;> simp [inicializar_entorno, gestionar_rutas, hc]

lemma estado_ext {s t : EstadoSistema F I} (hf : s.files = t.files) (hd : s.dirs = t.dirs)
    (hc : s.csv = t.csv) (hi : s.imagenes = t.imagenes) : s = t := by
  cases s; cases t
  simp_all

lemma inicializar_dirs_mem (s : EstadoSistema F I) :
    ∀ p ∈ rutas_requeridas, p ∈ (inicializar_entorno s).dirs := by
  intro p hp
  rw [inicializar_dirs_expr, mem_foldl_crear, mem_crear_directorio]
  simp only [rutas_requeridas, List.mem_cons, List.mem_singleton] at hp
  rcases hp with rfl | rfl | rfl | rfl | rfl | hp
  · exact Or.inl (Or.inr (by decide))
  · exact Or.inr (by decide)
  · exact Or.inr (by decide)
  · exact Or.inr (by decide)
  · exact Or.inr (by decide)
  · rcases hp with rfl | hp
    · exact Or.inr (by decide)
    · simp at hp

lemma inicializar_dirs_fijo (s : EstadoSistema F I)
    (h : ∀ p ∈ rutas_requeridas, p ∈ s.dirs) :
    (inicializar_entorno s).dirs = s.dirs := by
  rw [inicializar_dirs_expr]
  have hbase : ∀ q ∈ prefijosNoVacios RUTA_DATA, q ∈ s.dirs := by
    rw [show prefijosNoVacios RUTA_DATA = [["metadata"]] from rfl]
    intro q hq
    rw [List.mem_singleton] at hq
    subst hq
    exact h _ (by decide)
  rw [crear_directorio_fijo s.dirs RUTA_DATA hbase]
  apply foldl_crear_fijo
  rw [show CARPETAS_DATASET.map (fun sub => RUTA_DATASET ++ [sub]) =
    [["images", "dataset", "Train"], ["images", "dataset", "Test"],
      ["images", "dataset", "Validation"]] from rfl]
  intro p hp
  fin_cases hp <;>
  · intro q hq
    fin_cases hq <;> exact h _ (by decide)

/-- C10: `inicializar_entorno` creates every missing required directory,
creates the tabular file with header-only (no rows) content exactly when it
is absent, leaves an existing tabular file untouched, is the identity on a
state that already has the layout, and is idempotent. -/
theorem inicializar_entorno_idempotente (s : EstadoSistema F I) :
    (∀ p ∈ rutas_requeridas, p ∈ (inicializar_entorno s).dirs) ∧
    (s.csv = none → (inicializar_entorno s).csv = some []) ∧
    (∀ filas, s.csv = some filas → (inicializar_entorno s).csv = some filas) ∧
    ((∀ p ∈ rutas_requeridas, p ∈ s.dirs) → s.csv.isSome = true →
      inicializar_entorno s = s) ∧
    inicializar_entorno (inicializar_entorno s) = inicializar_entorno s := by
  refine ⟨inicializar_dirs_mem s, ?_, ?_, ?_, ?_⟩
  · intro hc; rw [inicializar_csv, hc]; rfl
  · intro filas hc; rw [inicializar_csv, hc]; rfl
  · intro hdirs hcsv
    rcases hc : s.csv with _ | filas
    · rw [hc] at hcsv; simp at hcsv
    · exact estado_ext (inicializar_files s) (inicializar_dirs_fijo s hdirs)
        (by rw [inicializar_csv, hc]; rfl) (inicializar_imagenes s)
  · apply estado_ext (inicializar_files _) (inicializar_dirs_fijo _ (inicializar_dirs_mem s))
      ?_ (inicializar_imagenes _)
    rw [inicializar_csv, inicializar_csv]
    rfl

/-- Witness for C10: a fully initialized concrete state is a fixed point. -/
theorem inicializar_entorno_idempotente_testigo :
    inicializar_entorno estadoEjemplo = estadoEjemplo :=
  (inicializar_entorno_idempotente estadoEjemplo).2.2.2.1 (by decide) (by decide)

/-! ## `modificar_metadata_imagen` lemmas and claims C5, C6, C7 -/

lemma modificar_buscar_none (fstr : F → String) (istr : I → String)
    (s : EstadoSistema F I) (id_imagen : String) (nd : NuevosDatos F I)
    (hex : existe s (nd.ruta_archivo.getD []))
    (hbus : buscar_imagen_por_id s id_imagen = none) :
    modificar_metadata_imagen fstr istr s id_imagen nd =
      (if (nd.ruta_archivo.getD []) ≠ ruta_destino_de (nd.ruta_archivo.getD [])
          (nd.conjunto_datos.getD "Train") then
        verificar_duplicados_dataset
          (copiar_archivo s (nd.ruta_archivo.getD [])
            (ruta_destino_de (nd.ruta_archivo.getD []) (nd.conjunto_datos.getD "Train")))
          (nd.ruta_archivo.getD [])
          (ruta_destino_de (nd.ruta_archivo.getD []) (nd.conjunto_datos.getD "Train"))
      else s, none) := by
  simp only [modificar_metadata_imagen]
  rw [if_pos hex]
  have hbus1 : buscar_imagen_por_id
      (if (nd.ruta_archivo.getD []) ≠ ruta_destino_de (nd.ruta_archivo.getD [])
          (nd.conjunto_datos.getD "Train") then
        verificar_duplicados_dataset
          (copiar_archivo s (nd.ruta_archivo.getD [])
            (ruta_destino_de (nd.ruta_archivo.getD []) (nd.conjunto_datos.getD "Train")))
          (nd.ruta_archivo.getD [])
          (ruta_destino_de (nd.ruta_archivo.getD []) (nd.conjunto_datos.getD "Train"))
      else s) id_imagen = none := by
    rw [buscar_eq_de_imagenes
      (show _ = s.imagenes by
        split <;> simp [verificar_duplicados_imagenes, copiar_archivo_imagenes])]
    exact hbus
  rw [hbus1]

/-- C7: with an existing source path but an id that matches no record,
`modificar_metadata_imagen` leaves the record list and the tabular file
unchanged and returns `None` — even though, whenever the source path and
the computed destination differ, it has already run the copy and the
duplicate cleanup against the filesystem. -/
theorem modificar_no_encontrado_no_cambia_metadata (fstr : F → String) (istr : I → String)
    (s : EstadoSistema F I) (id_imagen : String) (nd : NuevosDatos F I)
    (hex : existe s (nd.ruta_archivo.getD []))
    (hbus : buscar_imagen_por_id s id_imagen = none) :
    (modificar_metadata_imagen fstr istr s id_imagen nd).1.imagenes = s.imagenes ∧
    (modificar_metadata_imagen fstr istr s id_imagen nd).1.csv = s.csv ∧
    (modificar_metadata_imagen fstr istr s id_imagen nd).2 = none ∧
    ((nd.ruta_archivo.getD []) ≠ ruta_destino_de (nd.ruta_archivo.getD [])
        (nd.conjunto_datos.getD "Train") →
      (modificar_metadata_imagen fstr istr s id_imagen nd).1.files =
        (verificar_duplicados_dataset
          (copiar_archivo s (nd.ruta_archivo.getD [])
            (ruta_destino_de (nd.ruta_archivo.getD []) (nd.conjunto_datos.getD "Train")))
          (nd.ruta_archivo.getD [])
          (ruta_destino_de (nd.ruta_archivo.getD []) (nd.conjunto_datos.getD "Train"))).files) := by
  rw [modificar_buscar_none fstr istr s id_imagen nd hex hbus]
  refine ⟨?_, ?_, rfl, ?_⟩
  · split <;> simp [verificar_duplicados_imagenes, copiar_archivo_imagenes]
  · split <;> simp [verificar_duplicados_csv, copiar_archivo_csv]
  · intro hne
    rw [if_pos hne]

/-- A state with one registered record whose file sits inside the managed
`Train` folder. -/
def estadoConRegistro : EstadoSistema Unit Unit :=
  ⟨[["images", "dataset", "Train", "a.png"]],
    [[], ["metadata"], ["images"], ["images", "dataset"], ["images", "dataset", "Train"],
      ["images", "dataset", "Test"], ["images", "dataset", "Validation"]],
    some [], [imagenEjemplo]⟩

/-- A change-set that supplies no `ruta_archivo` key at all. -/
def cambiosSinRuta : NuevosDatos Unit Unit := ⟨none, none, none, none, none, none, none⟩

/-- A change-set whose `ruta_archivo` names an existing loose file. -/
def cambiosConRuta : NuevosDatos Unit Unit := ⟨some ["b.png"], none, none, none, none, none, none⟩

/-- A state with one loose file `b.png` and no records. -/
def estadoSinRegistros : EstadoSistema Unit Unit :=
  ⟨[["b.png"]], [[], ["images"], ["images", "dataset"], ["images", "dataset", "Train"]],
    some [], []⟩

/-- Witness for C7 at a concrete unmatched id. -/
theorem modificar_no_encontrado_no_cambia_metadata_testigo :
    (modificar_metadata_imagen (fun _ : Unit => "10.5") (fun _ : Unit => "512")
      estadoSinRegistros "img_00000000" cambiosConRuta).1.imagenes =
      estadoSinRegistros.imagenes ∧
    (modificar_metadata_imagen (fun _ : Unit => "10.5") (fun _ : Unit => "512")
      estadoSinRegistros "img_00000000" cambiosConRuta).1.csv = estadoSinRegistros.csv ∧
    (modificar_metadata_imagen (fun _ : Unit => "10.5") (fun _ : Unit => "512")
      estadoSinRegistros "img_00000000" cambiosConRuta).2 = none ∧
    ((cambiosConRuta.ruta_archivo.getD []) ≠ ruta_destino_de
        (cambiosConRuta.ruta_archivo.getD []) (cambiosConRuta.conjunto_datos.getD "Train") →
      (modificar_metadata_imagen (fun _ : Unit => "10.5") (fun _ : Unit => "512")
        estadoSinRegistros "img_00000000" cambiosConRuta).1.files =
        (verificar_duplicados_dataset
          (copiar_archivo estadoSinRegistros (cambiosConRuta.ruta_archivo.getD [])
            (ruta_destino_de (cambiosConRuta.ruta_archivo.getD [])
              (cambiosConRuta.conjunto_datos.getD "Train")))
          (cambiosConRuta.ruta_archivo.getD [])
          (ruta_destino_de (cambiosConRuta.ruta_archivo.getD [])
            (cambiosConRuta.conjunto_datos.getD "Train"))).files) :=
  modificar_no_encontrado_no_cambia_metadata (fun _ : Unit => "10.5") (fun _ : Unit => "512")
    estadoSinRegistros "img_00000000" cambiosConRuta (by decide) (by decide)

/-- C5 (amended): when the `ruta_archivo` of the change-set resolves to a path
that does not exist at all, `modificar_metadata_imagen` returns `False`
and the state is completely unchanged.  (When the key is absent, the empty
default resolves to the existing working directory, so this guard does not
fire — see the counterexample.) -/
theorem modificar_origen_inexistente_falla (fstr : F → String) (istr : I → String)
    (s : EstadoSistema F I) (id_imagen : String) (nd : NuevosDatos F I)
    (h : ¬ existe s (nd.ruta_archivo.getD [])) :
    modificar_metadata_imagen fstr istr s id_imagen nd = (s, some false) := by
  simp only [modificar_metadata_imagen]
  rw [if_neg h]

/-- Witness for the amended C5 theorem: a change-set naming a missing file. -/
theorem modificar_origen_inexistente_falla_testigo :
    modificar_metadata_imagen (fun _ : Unit => "10.5") (fun _ : Unit => "512")
      estadoConRegistro "img_0a1b2c3d" ⟨some ["no-existe.png"], none, none, none, none, none, none⟩ =
      (estadoConRegistro, some false) :=
  modificar_origen_inexistente_falla (fun _ : Unit => "10.5") (fun _ : Unit => "512")
    estadoConRegistro "img_0a1b2c3d" ⟨some ["no-existe.png"], none, none, none, none, none, none⟩
    (by decide)

/-- Counterexample to C5 as stated: with no `ruta_archivo` key in the
change-set the operation does not fail — it succeeds, and it does modify
the record list (here it also rewrites the path of the record to the `Train`
directory itself and deletes the previous file of the record). -/
theorem modificar_sin_ruta_no_falla :
    (modificar_metadata_imagen (fun _ : Unit => "10.5") (fun _ : Unit => "512")
      estadoConRegistro "img_0a1b2c3d" cambiosSinRuta).2 = some true ∧
    (modificar_metadata_imagen (fun _ : Unit => "10.5") (fun _ : Unit => "512")
      estadoConRegistro "img_0a1b2c3d" cambiosSinRuta).1.imagenes ≠
      estadoConRegistro.imagenes := by
  decide

/-- C6 (amended): `registrar_nueva_imagen` returns a boolean on every
input; `modificar_metadata_imagen` never raises on an unmatched id but
reports that failure by returning Python `None` (no boolean). -/
theorem operaciones_reportan (fstr : F → String) (istr : I → String) :
    (∀ (s : EstadoSistema F I) (ruta_origen : FPath) (meta : Metadata F I)
      (nuevo_id : String),
      (registrar_nueva_imagen fstr istr s ruta_origen meta nuevo_id).2.isSome = true) ∧
    (∀ (s : EstadoSistema F I) (id_imagen : String) (nd : NuevosDatos F I),
      existe s (nd.ruta_archivo.getD []) →
      buscar_imagen_por_id s id_imagen = none →
      (modificar_metadata_imagen fstr istr s id_imagen nd).2 = none) := by
  constructor
  · intro s ruta_origen meta nuevo_id
    simp only [registrar_nueva_imagen]
    split_ifs <;> rfl
  · intro s id_imagen nd hex hbus
    rw [modificar_buscar_none fstr istr s id_imagen nd hex hbus]

/-- Witness for the amended C6 theorem. -/
theorem operaciones_reportan_testigo :
    (registrar_nueva_imagen (fun _ : Unit => "10.5") (fun _ : Unit => "512")
      estadoEjemplo ["a.png"] metadataInvalida "img_ffffffff").2.isSome = true ∧
    (modificar_metadata_imagen (fun _ : Unit => "10.5") (fun _ : Unit => "512")
      estadoSinRegistros "img_ffffffff" cambiosConRuta).2 = none :=
  ⟨(operaciones_reportan (fun _ : Unit => "10.5") (fun _ : Unit => "512")).1
      estadoEjemplo ["a.png"] metadataInvalida "img_ffffffff",
    (operaciones_reportan (fun _ : Unit => "10.5") (fun _ : Unit => "512")).2
      estadoSinRegistros "img_ffffffff" cambiosConRuta (by decide) (by decide)⟩

/-- Counterexample to C6 as stated: on an unmatched id with an existing
source path, `modificar_metadata_imagen` returns Python `None`, not a
boolean. -/
theorem modificar_no_encontrado_devuelve_none :
    (modificar_metadata_imagen (fun _ : Unit => "10.5") (fun _ : Unit => "512")
      estadoSinRegistros "img_11111111" cambiosConRuta).2 = none := by
  decide

end Glaucoma
